import Mathlib

/-
  Shallow embedding of the VtigerApiClient class (a TypeScript client for the
  vtiger CRM web service) and proofs about its session handshake, module
  resolver and request construction.

  Modelling conventions:
  - JavaScript values that the code may leave as `undefined` or `null` are
    modelled by the small inductive `JsVal`; string coercion (template
    literals, URLSearchParams.append) renders them as "undefined" / "null",
    mirroring the JS runtime.
  - The axios transport is an external collaborator; each operation takes the
    transport outcome (`Transport`) as an explicit argument and returns the
    request it built together with the decoded result of the run.
  - GET requests built from an axios `params` object drop entries whose value
    is null or undefined (axios default serializer); POST bodies built with
    URLSearchParams coerce every value to a string.
  - The md5 primitive (crypto-js) is an external collaborator and is passed in
    as an abstract function `String -> String`.
-/

namespace VtigerClient

/-- A JavaScript value as far as this client inspects one: undefined, null,
or a string. -/
inductive JsVal where
  | undefined
  | null
  | str (s : String)
deriving DecidableEq

/-- String coercion of a JsVal, as performed by JS template literals and by
URLSearchParams.append. -/
def JsVal.coerce : JsVal → String
  | .undefined => "undefined"
  | .null => "null"
  | .str s => s

/-- JS truthiness restricted to the values of `JsVal`: undefined and null are
falsy, a string is truthy iff it is nonempty. -/
def JsVal.truthy : JsVal → Bool
  | .undefined => false
  | .null => false
  | .str s => s ≠ ""

/-- Embed an optional string whose absent case is the JS value null. -/
def optNull : Option String → JsVal
  | some s => .str s
  | none => .null

/-- Embed an optional string whose absent case is the JS value undefined
(a missing object property). -/
def optUndefined : Option String → JsVal
  | some s => .str s
  | none => .undefined

/-- The JS idiom `x || fallback` on an optional string: the fallback is used
when the value is absent or the empty string (falsy). -/
def jsOrElse (v : Option String) (fallback : String) : String :=
  match v with
  | some s => if s = "" then fallback else s
  | none => fallback

inductive HttpMethod where
  | get
  | post
deriving DecidableEq

/-- An HTTP request as put on the wire: the endpoint URL, the method, and the
serialized parameters (query string for GET, form body for POST), in order. -/
structure HttpRequest where
  url : String
  method : HttpMethod
  params : List (String × String)
deriving DecidableEq

/-- Keep a param entry iff its value is neither null nor undefined; the axios
default serializer skips those entries of a GET params object. -/
def keptParam (p : String × JsVal) : Bool :=
  match p.2 with
  | .undefined => false
  | .null => false
  | .str _ => true

/-- Build a GET request from an axios `params` object: null/undefined entries
are dropped, the rest are stringified. -/
def mkGet (url : String) (ps : List (String × JsVal)) : HttpRequest :=
  { url := url, method := .get,
    params := (ps.filter keptParam).map (fun p => (p.1, p.2.coerce)) }

/-- Build a form-encoded POST request from URLSearchParams.append calls:
every value is coerced to a string (null becomes "null"). -/
def mkPost (url : String) (ps : List (String × JsVal)) : HttpRequest :=
  { url := url, method := .post,
    params := ps.map (fun p => (p.1, p.2.coerce)) }

/-- Outcome of one HTTP exchange as delivered by the transport: either the
decoded response data or a transport failure carrying an error message. -/
inductive Transport (α : Type) where
  | ok (data : α)
  | err (msg : String)

/-- Pass-through of a transport outcome into the value an operation resolves
or rejects with: `return response.data` / `catch -> Promise.reject(error)`. -/
def dispatchResult {α : Type} : Transport α → Except String α
  | .ok d => .ok d
  | .err m => .error m

-- Module resolver (the Utils section of the class)

/-- Lookup from a module key to the numeric module id, translated from the
switch statement of getModuleId; the default branch returns null. -/
def getModuleId (module : String) : Option Nat :=
  if module = "calendar" then some 9
  else if module = "leads" then some 2
  else if module = "accounts" then some 3
  else if module = "contacts" then some 4
  else if module = "potentials" then some 5
  else if module = "products" then some 6
  else if module = "documents" then some 7
  else if module = "emails" then some 8
  else if module = "helpdesk" then some 9
  else if module = "faq" then some 10
  else if module = "vendors" then some 11
  else if module = "pricebooks" then some 12
  else if module = "quotes" then some 13
  else if module = "purchaseorder" then some 14
  else if module = "salesorder" then some 15
  else if module = "invoice" then some 16
  else if module = "campaigns" then some 17
  else if module = "events" then some 18
  else if module = "users" then some 19
  else if module = "groups" then some 20
  else if module = "currency" then some 21
  else if module = "documentfolders" then some 22
  else none

/-- Lookup from a module key to the display name, translated from the switch
statement of getModuleName; the default branch returns null. -/
def getModuleName (module : String) : Option String :=
  if module = "calendar" then some "Calendar"
  else if module = "leads" then some "Leads"
  else if module = "accounts" then some "Accounts"
  else if module = "contacts" then some "Contacts"
  else if module = "potentials" then some "Potentials"
  else if module = "products" then some "Products"
  else if module = "documents" then some "Documents"
  else if module = "emails" then some "Emails"
  else if module = "helpdesk" then some "HelpDesk"
  else if module = "faq" then some "Faq"
  else if module = "vendors" then some "Vendors"
  else if module = "pricebooks" then some "PriceBooks"
  else if module = "quotes" then some "Quotes"
  else if module = "purchaseorder" then some "PurchaseOrder"
  else if module = "salesorder" then some "SalesOrder"
  else if module = "invoice" then some "Invoice"
  else if module = "campaigns" then some "Campaigns"
  else if module = "events" then some "Events"
  else if module = "users" then some "Users"
  else if module = "groups" then some "Groups"
  else if module = "currency" then some "Currency"
  else if module = "documentfolders" then some "DocumentFolders"
  else none

/-- The module table of spec section 4.2, written from the words of the spec
(key, numeric id, display name) for comparison with the resolver above. -/
def specModuleTable : List (String × Nat × String) :=
  [("calendar", 9, "Calendar"),
   ("leads", 2, "Leads"),
   ("accounts", 3, "Accounts"),
   ("contacts", 4, "Contacts"),
   ("potentials", 5, "Potentials"),
   ("products", 6, "Products"),
   ("documents", 7, "Documents"),
   ("emails", 8, "Emails"),
   ("helpdesk", 9, "HelpDesk"),
   ("faq", 10, "Faq"),
   ("vendors", 11, "Vendors"),
   ("pricebooks", 12, "PriceBooks"),
   ("quotes", 13, "Quotes"),
   ("purchaseorder", 14, "PurchaseOrder"),
   ("salesorder", 15, "SalesOrder"),
   ("invoice", 16, "Invoice"),
   ("campaigns", 17, "Campaigns"),
   ("events", 18, "Events"),
   ("users", 19, "Users"),
   ("groups", 20, "Groups"),
   ("currency", 21, "Currency"),
   ("documentfolders", 22, "DocumentFolders")]

/-- The 22 defined module keys, in the order of the spec table. -/
def specModuleKeys : List String := specModuleTable.map (fun p => p.1)

-- Client configuration and session state

/-- The constructor arguments of VtigerApiClient, immutable after
construction. -/
structure Config where
  url : String
  username : String
  accessKey : String
deriving DecidableEq

/-- The endpoint URL computed in the constructor: url ++ "/webservice.php". -/
def Config.webserviceUrl (c : Config) : String := c.url ++ "/webservice.php"

/-- The result object of a successful login response, as far as the client
reads it: result.sessionName and result.userId, either of which the remote
may omit. -/
structure LoginResult where
  sessionName : Option String
  userId : Option String
deriving DecidableEq

/-- The decoded body of the login POST response; the client reads only its
result field (and returns the body whole). -/
structure LoginData where
  success : Bool
  result : Option LoginResult
deriving DecidableEq

/-- The error object of a response envelope; the client reads only message. -/
structure VError where
  message : Option String
deriving DecidableEq

/-- The result object of a getchallenge response; the client reads only
token. -/
structure ChallengeResult where
  token : Option String
deriving DecidableEq

/-- The decoded body of a getchallenge response: success flag, the result
object carrying the token, and an optional error object. -/
structure ChallengeData where
  success : Bool
  result : Option ChallengeResult
  error : Option VError
deriving DecidableEq

/-- The mutable fields of the client instance: sessionId, userId and user,
all initialized to null in the constructor and assigned only by login. -/
structure ClientState where
  sessionId : Option String
  userId : Option String
  user : Option LoginResult
deriving DecidableEq

/-- The state right after construction: sessionId, user and userId null. -/
def initialState : ClientState := ⟨none, none, none⟩

/-- Stands in for the message of the TypeError the JS runtime throws when a
property of undefined is read (e.g. response.data.result.sessionName with
result missing); the exact wording is runtime-specific. -/
def typeErrorMessage : String :=
  "TypeError: cannot read properties of undefined"

-- Session manager

/-- The GET request issued by getChallenge. -/
def challengeRequest (cfg : Config) : HttpRequest :=
  mkGet cfg.webserviceUrl
    [("operation", .str "getchallenge"), ("username", .str cfg.username)]

/-- getChallenge: issues the getchallenge GET and, when the envelope reports
success false, rejects with the Error built from data.error?.message with the
fallback string, mirroring the throw in the source. -/
def getChallenge (cfg : Config) (outcome : Transport ChallengeData) :
    HttpRequest × Except String ChallengeData :=
  (challengeRequest cfg,
    match outcome with
    | .err m => .error m
    | .ok d =>
      if d.success then .ok d
      else .error (jsOrElse (d.error.bind (fun e => e.message))
        "Operation failed: getchallenge"))

/-- The form-encoded login POST request, parameters in append order. -/
def loginRequest (cfg : Config) (hash : String) : HttpRequest :=
  mkPost cfg.webserviceUrl
    [("operation", .str "login"), ("username", .str cfg.username),
     ("accessKey", .str hash)]

/-- The outcome of one run of login: the requests sent in order, the value
the promise resolves or rejects with, and the client state afterwards. -/
structure LoginRun where
  requests : List HttpRequest
  result : Except String LoginData
  state : ClientState

/-- login: two-step handshake. Step 1 runs getChallenge; a failure there (or
a missing result object, which raises a TypeError at the token read) rejects
before any POST. Step 2 hashes challengeToken ++ accessKey with md5 and posts
operation=login, username, accessKey=hash. On a response whose result object
is present, the three session fields are assigned from it and the full body
is returned; a missing result object raises a TypeError at the sessionName
read, before any field assignment. Every rejection leaves the state as it
was (the catch block only re-throws error.message). -/
def login (cfg : Config) (md5 : String → String) (st : ClientState)
    (challengeOutcome : Transport ChallengeData)
    (loginOutcome : Transport LoginData) : LoginRun :=
  let chReq := (getChallenge cfg challengeOutcome).1
  match (getChallenge cfg challengeOutcome).2 with
  | .error m => ⟨[chReq], .error m, st⟩
  | .ok d =>
    match d.result with
    | none => ⟨[chReq], .error typeErrorMessage, st⟩
    | some r =>
      let challengeToken := (optUndefined r.token).coerce
      let hash := md5 (challengeToken ++ cfg.accessKey)
      let req := loginRequest cfg hash
      match loginOutcome with
      | .err m => ⟨[chReq, req], .error m, st⟩
      | .ok ld =>
        match ld.result with
        | none => ⟨[chReq, req], .error typeErrorMessage, st⟩
        | some lr =>
          ⟨[chReq, req], .ok ld, ⟨lr.sessionName, lr.userId, some lr⟩⟩

/-- logout: posts operation=logout with the current sessionName and passes
the outcome through; no field of the client state is assigned. -/
def logout {α : Type} (cfg : Config) (st : ClientState)
    (outcome : Transport α) :
    HttpRequest × Except String α × ClientState :=
  (mkPost cfg.webserviceUrl
     [("operation", .str "logout"), ("sessionName", optNull st.sessionId)],
   dispatchResult outcome, st)

-- Record data and its JSON rendering

/-- A record map passed to create/update: the fields the client never looks
at, plus the two properties the client itself reads or writes
(assigned_user_id and id), modelled apart so the mutation in create/update
can be expressed. A property equal to undef is absent. -/
structure RecordData where
  fields : List (String × String)
  assigned_user_id : JsVal
  id : JsVal
deriving DecidableEq

/-- Quote a string for the JSON rendering (the model assumes field names and
values need no escaping). -/
def jsonQuote (s : String) : String := "\"" ++ s ++ "\""

/-- Render one optional property the way JSON.stringify does: an undefined
property is omitted, a null one is rendered as null. -/
def stringifyField (name : String) (v : JsVal) : List String :=
  match v with
  | .undefined => []
  | .null => [jsonQuote name ++ ":null"]
  | .str s => [jsonQuote name ++ ":" ++ jsonQuote s]

/-- JSON.stringify of a RecordData: the opaque fields followed by the two
tracked properties (property order within the object is abstracted). -/
def stringifyData (d : RecordData) : String :=
  "\x7b" ++ String.intercalate ","
    ((d.fields.map (fun p => jsonQuote p.1 ++ ":" ++ jsonQuote p.2))
      ++ stringifyField "assigned_user_id" d.assigned_user_id
      ++ stringifyField "id" d.id) ++ "\x7d"

/-- The composite record reference template `moduleId x recordId`; a null
module id is coerced to the string "null" by the template literal. -/
def recordRef (moduleId : Option Nat) (recordId : Nat) : String :=
  (match moduleId with
   | some i => toString i
   | none => "null") ++ "x" ++ toString recordId

-- Operation dispatcher

/-- create: resolves the module name, defaults data.assigned_user_id to
this.userId when the present value is falsy (the || idiom), then posts
operation=create, sessionName, element=JSON.stringify(data), elementType. -/
def create {α : Type} (cfg : Config) (st : ClientState) (module : String)
    (data : RecordData) (outcome : Transport α) :
    HttpRequest × Except String α :=
  let moduleName := getModuleName module
  let data1 := { data with
    assigned_user_id :=
      if data.assigned_user_id.truthy then data.assigned_user_id
      else optNull st.userId }
  (mkPost cfg.webserviceUrl
    [("operation", .str "create"), ("sessionName", optNull st.sessionId),
     ("element", .str (stringifyData data1)),
     ("elementType", optNull moduleName)],
   dispatchResult outcome)

/-- retrieve: GET with operation=retrieve, sessionName and the composite id
built from the resolved module id. -/
def retrieve {α : Type} (cfg : Config) (st : ClientState) (module : String)
    (recordId : Nat) (outcome : Transport α) :
    HttpRequest × Except String α :=
  let moduleId := getModuleId module
  (mkGet cfg.webserviceUrl
    [("operation", .str "retrieve"), ("sessionName", optNull st.sessionId),
     ("id", .str (recordRef moduleId recordId))],
   dispatchResult outcome)

/-- update: injects data.id = the composite reference, then posts
operation=update, sessionName, element=JSON.stringify(data). -/
def update {α : Type} (cfg : Config) (st : ClientState) (module : String)
    (recordId : Nat) (data : RecordData) (outcome : Transport α) :
    HttpRequest × Except String α :=
  let moduleId := getModuleId module
  let data1 := { data with id := .str (recordRef moduleId recordId) }
  (mkPost cfg.webserviceUrl
    [("operation", .str "update"), ("sessionName", optNull st.sessionId),
     ("element", .str (stringifyData data1))],
   dispatchResult outcome)

/-- delete: posts operation=delete, sessionName and the composite id. -/
def delete {α : Type} (cfg : Config) (st : ClientState) (module : String)
    (recordId : Nat) (outcome : Transport α) :
    HttpRequest × Except String α :=
  let moduleId := getModuleId module
  (mkPost cfg.webserviceUrl
    [("operation", .str "delete"), ("sessionName", optNull st.sessionId),
     ("id", .str (recordRef moduleId recordId))],
   dispatchResult outcome)

/-- query: GET with operation=query, sessionName and the caller-supplied
query string passed through verbatim. -/
def query {α : Type} (cfg : Config) (st : ClientState) (q : String)
    (outcome : Transport α) : HttpRequest × Except String α :=
  (mkGet cfg.webserviceUrl
    [("operation", .str "query"), ("sessionName", optNull st.sessionId),
     ("query", .str q)],
   dispatchResult outcome)

/-- listTypes: GET with operation=listtypes and sessionName. -/
def listTypes {α : Type} (cfg : Config) (st : ClientState)
    (outcome : Transport α) : HttpRequest × Except String α :=
  (mkGet cfg.webserviceUrl
    [("operation", .str "listtypes"), ("sessionName", optNull st.sessionId)],
   dispatchResult outcome)

/-- describe: GET with operation=describe, sessionName and elementType set to
the resolved module name. -/
def describe {α : Type} (cfg : Config) (st : ClientState) (module : String)
    (outcome : Transport α) : HttpRequest × Except String α :=
  let moduleName := getModuleName module
  (mkGet cfg.webserviceUrl
    [("operation", .str "describe"), ("sessionName", optNull st.sessionId),
     ("elementType", optNull moduleName)],
   dispatchResult outcome)

/-- retrieveRelated: GET with operation=retrieve_related, sessionName, the
composite id of the target record, relatedLabel and relatedType. -/
def retrieveRelated {α : Type} (cfg : Config) (st : ClientState)
    (module : String) (recordId : Nat) (relatedModule : String)
    (relatedLabel : String) (outcome : Transport α) :
    HttpRequest × Except String α :=
  let moduleId := getModuleId module
  let relateModuleName := getModuleName relatedModule
  (mkGet cfg.webserviceUrl
    [("operation", .str "retrieve_related"),
     ("sessionName", optNull st.sessionId),
     ("id", .str (recordRef moduleId recordId)),
     ("relatedLabel", .str relatedLabel),
     ("relatedType", optNull relateModuleName)],
   dispatchResult outcome)

/-- relatedTypes: GET with operation=relatedtypes, sessionName and
elementType set to the resolved module name. -/
def relatedTypes {α : Type} (cfg : Config) (st : ClientState)
    (module : String) (outcome : Transport α) :
    HttpRequest × Except String α :=
  let moduleName := getModuleName module
  (mkGet cfg.webserviceUrl
    [("operation", .str "relatedtypes"),
     ("sessionName", optNull st.sessionId),
     ("elementType", optNull moduleName)],
   dispatchResult outcome)

/-- queryRelated: GET with operation=query_related, sessionName, the fixed
query string SELECT * FROM followed by the resolved module name, the
composite id and relatedLabel. -/
def queryRelated {α : Type} (cfg : Config) (st : ClientState)
    (module : String) (recordId : Nat) (relatedLabel : String)
    (outcome : Transport α) : HttpRequest × Except String α :=
  let moduleId := getModuleId module
  let moduleName := getModuleName module
  (mkGet cfg.webserviceUrl
    [("operation", .str "query_related"),
     ("sessionName", optNull st.sessionId),
     ("query", .str ("SELECT * FROM " ++ (optNull moduleName).coerce)),
     ("id", .str (recordRef moduleId recordId)),
     ("relatedLabel", .str relatedLabel)],
   dispatchResult outcome)

/-- deleteRelated: posts operation=delete_related, sessionName and the two
composite record references. -/
def deleteRelated {α : Type} (cfg : Config) (st : ClientState)
    (sourceModule : String) (sourceRecordId : Nat) (relatedModule : String)
    (relatedRecordId : Nat) (outcome : Transport α) :
    HttpRequest × Except String α :=
  let sourceModuleId := getModuleId sourceModule
  let relatedModuleId := getModuleId relatedModule
  (mkPost cfg.webserviceUrl
    [("operation", .str "delete_related"),
     ("sessionName", optNull st.sessionId),
     ("sourceRecordId", .str (recordRef sourceModuleId sourceRecordId)),
     ("relatedRecordId", .str (recordRef relatedModuleId relatedRecordId))],
   dispatchResult outcome)

/-- addRelated: posts operation=add_related, sessionName, the two composite
record references and relationIdLabel. -/
def addRelated {α : Type} (cfg : Config) (st : ClientState)
    (sourceModule : String) (sourceRecordId : Nat) (relatedModule : String)
    (relatedRecordId : Nat) (relationIdLabel : String)
    (outcome : Transport α) : HttpRequest × Except String α :=
  let sourceModuleId := getModuleId sourceModule
  let relatedModuleId := getModuleId relatedModule
  (mkPost cfg.webserviceUrl
    [("operation", .str "add_related"),
     ("sessionName", optNull st.sessionId),
     ("sourceRecordId", .str (recordRef sourceModuleId sourceRecordId)),
     ("relatedRecordId", .str (recordRef relatedModuleId relatedRecordId)),
     ("relationIdLabel", .str relationIdLabel)],
   dispatchResult outcome)

end VtigerClient

namespace VtigerClient

/-- C2: every one of the 22 defined module keys resolves to exactly the
numeric id and PascalCase name of the spec table (in particular calendar and
helpdesk both resolve to id 9), and every key outside the 22-element
enumeration resolves to null under both lookups. -/
theorem moduleResolver_matches_spec_table :
    (∀ p ∈ specModuleTable,
      getModuleId p.1 = some p.2.1 ∧ getModuleName p.1 = some p.2.2) ∧
    getModuleId "calendar" = some 9 ∧ getModuleId "helpdesk" = some 9 ∧
    (∀ s : String, s ∉ specModuleKeys →
      getModuleId s = none ∧ getModuleName s = none) := by
  refine ⟨by decide, by decide, by decide, ?_⟩
  intro s hs
  simp only [specModuleKeys, specModuleTable, List.map_cons, List.map_nil,
    List.mem_cons, List.not_mem_nil, or_false, not_or] at hs
  obtain ⟨h1, h2, h3, h4, h5, h6, h7, h8, h9, h10, h11, h12, h13, h14, h15,
    h16, h17, h18, h19, h20, h21, h22⟩ := hs
  constructor
  · simp only [getModuleId, if_neg h1, if_neg h2, if_neg h3, if_neg h4,
      if_neg h5, if_neg h6, if_neg h7, if_neg h8, if_neg h9, if_neg h10,
      if_neg h11, if_neg h12, if_neg h13, if_neg h14, if_neg h15, if_neg h16,
      if_neg h17, if_neg h18, if_neg h19, if_neg h20, if_neg h21, if_neg h22]
  · simp only [getModuleName, if_neg h1, if_neg h2, if_neg h3, if_neg h4,
      if_neg h5, if_neg h6, if_neg h7, if_neg h8, if_neg h9, if_neg h10,
      if_neg h11, if_neg h12, if_neg h13, if_neg h14, if_neg h15, if_neg h16,
      if_neg h17, if_neg h18, if_neg h19, if_neg h20, if_neg h21, if_neg h22]

/-- C2 witness: the theorem applied at the concrete key "project", which is
outside the enumeration, and at the calendar row of the table. -/
theorem moduleResolver_matches_spec_table_witness :
    getModuleId "project" = none ∧ getModuleName "project" = none :=
  moduleResolver_matches_spec_table.2.2.2 "project" (by decide)

-- Concrete fixtures for the witness and counterexample theorems

/-- A concrete client configuration. -/
def cfgW : Config := ⟨"https://crm.example", "admin", "secret"⟩

/-- A concrete stand-in for the md5 primitive. -/
def md5W : String → String := fun s => "H" ++ s

/-- A concrete successful getchallenge body with token TOK. -/
def chW : ChallengeData := ⟨true, some ⟨some "TOK"⟩, none⟩

/-- A concrete failed getchallenge body carrying an error message. -/
def chFailW : ChallengeData := ⟨false, none, some ⟨some "Invalid username"⟩⟩

/-- A concrete successful login body. -/
def ldW : LoginData := ⟨true, some ⟨some "sess", some "19x1"⟩⟩

/-- A concrete client state of a logged-in client. -/
def stW : ClientState :=
  ⟨some "sess", some "19x1", some ⟨some "sess", some "19x1"⟩⟩

/-- C1: when the getchallenge step succeeds with token T, login sends exactly
the challenge GET followed by one form-encoded POST whose parameters are
operation=login, the configured username, and accessKey equal to
md5 (T ++ accessKey); under the stated inequalities (the digest differs from
the secret and no other transmitted value coincides with it) no parameter
value of either request equals the plaintext accessKey. -/
theorem login_posts_hashed_accessKey
    (cfg : Config) (md5 : String → String) (st : ClientState)
    (d : ChallengeData) (r : ChallengeResult) (T : String)
    (lo : Transport LoginData)
    (hsucc : d.success = true) (hres : d.result = some r)
    (htok : r.token = some T)
    (hhash : md5 (T ++ cfg.accessKey) ≠ cfg.accessKey)
    (huser : cfg.username ≠ cfg.accessKey)
    (hop1 : cfg.accessKey ≠ "getchallenge")
    (hop2 : cfg.accessKey ≠ "login") :
    (login cfg md5 st (.ok d) lo).requests
      = [challengeRequest cfg,
         loginRequest cfg (md5 (T ++ cfg.accessKey))] ∧
    (loginRequest cfg (md5 (T ++ cfg.accessKey))).params
      = [("operation", "login"), ("username", cfg.username),
         ("accessKey", md5 (T ++ cfg.accessKey))] ∧
    ∀ req ∈ (login cfg md5 st (.ok d) lo).requests,
      ∀ p ∈ req.params, p.2 ≠ cfg.accessKey := by
  have hch : (challengeRequest cfg).params
      = [("operation", "getchallenge"), ("username", cfg.username)] := rfl
  have hlr : ∀ h : String, (loginRequest cfg h).params
      = [("operation", "login"), ("username", cfg.username),
         ("accessKey", h)] := fun h => rfl
  have hrun : (login cfg md5 st (.ok d) lo).requests
      = [challengeRequest cfg,
         loginRequest cfg (md5 (T ++ cfg.accessKey))] := by
    cases lo with
    | err m =>
      simp [login, getChallenge, hsucc, hres, htok, optUndefined, JsVal.coerce]
    | ok ld =>
      cases hld : ld.result <;>
        simp [login, getChallenge, hsucc, hres, htok, hld, optUndefined,
          JsVal.coerce]
  refine ⟨hrun, hlr _, ?_⟩
  rw [hrun]
  intro req hreq p hp
  simp only [List.mem_cons, List.not_mem_nil, or_false] at hreq
  rcases hreq with h | h <;> subst h
  · rw [hch] at hp
    simp only [List.mem_cons, List.not_mem_nil, or_false] at hp
    rcases hp with h | h <;> subst h
    · exact Ne.symm hop1
    · exact huser
  · rw [hlr] at hp
    simp only [List.mem_cons, List.not_mem_nil, or_false] at hp
    rcases hp with h | h | h <;> subst h
    · exact Ne.symm hop2
    · exact huser
    · exact hhash

/-- C1 witness: the theorem applied at the concrete fixtures; the single POST
carries accessKey = md5W (TOK ++ secret). -/
theorem login_posts_hashed_accessKey_witness :
    (login cfgW md5W initialState (.ok chW) (.ok ldW)).requests
      = [challengeRequest cfgW,
         loginRequest cfgW (md5W ("TOK" ++ "secret"))] :=
  (login_posts_hashed_accessKey cfgW md5W initialState chW ⟨some "TOK"⟩ "TOK"
    (.ok ldW) rfl rfl rfl (by decide) (by decide) (by decide) (by decide)).1

/-- C4: when the challenge step reports success false, login sends exactly
one HTTP request in total (the challenge GET, never the login POST) and
rejects with the remote error message, or with the generic fallback when the
remote supplies none (or an empty one). -/
theorem login_challenge_failure_no_post
    (cfg : Config) (md5 : String → String) (st : ClientState)
    (d : ChallengeData) (lo : Transport LoginData)
    (hfail : d.success = false) :
    (login cfg md5 st (.ok d) lo).requests = [challengeRequest cfg] ∧
    (login cfg md5 st (.ok d) lo).result
      = .error (jsOrElse (d.error.bind (fun e => e.message))
          "Operation failed: getchallenge") ∧
    (∀ msg, d.error.bind (fun e => e.message) = some msg → msg ≠ "" →
      (login cfg md5 st (.ok d) lo).result = .error msg) ∧
    (d.error.bind (fun e => e.message) = none →
      (login cfg md5 st (.ok d) lo).result
        = .error "Operation failed: getchallenge") := by
  have hmain : (login cfg md5 st (.ok d) lo).requests
        = [challengeRequest cfg] ∧
      (login cfg md5 st (.ok d) lo).result
        = .error (jsOrElse (d.error.bind (fun e => e.message))
            "Operation failed: getchallenge") := by
    simp [login, getChallenge, hfail]
  refine ⟨hmain.1, hmain.2, ?_, ?_⟩
  · intro msg hmsg hne
    rw [hmain.2, hmsg]
    simp [jsOrElse, hne]
  · intro hnone
    rw [hmain.2, hnone]
    simp [jsOrElse]

/-- C4 witness: the theorem applied at the concrete failing challenge body;
only the challenge GET is sent and the rejection carries the remote
message. -/
theorem login_challenge_failure_no_post_witness :
    (login cfgW md5W initialState (.ok chFailW) (.ok ldW)).requests
      = [challengeRequest cfgW] ∧
    (login cfgW md5W initialState (.ok chFailW) (.ok ldW)).result
      = .error "Invalid username" :=
  ⟨(login_challenge_failure_no_post cfgW md5W initialState chFailW
      (.ok ldW) rfl).1,
   (login_challenge_failure_no_post cfgW md5W initialState chFailW
      (.ok ldW) rfl).2.2.1 "Invalid username" rfl (by decide)⟩

/-- C5: login is atomic in the session state: every rejecting run (transport
failure at either step, challenge failure, or a response body without the
expected result object) leaves sessionId, userId and user exactly as they
were; every resolving run sets all three fields together from the login
result object and resolves with the full decoded response, which is exactly
the body the transport delivered. -/
theorem login_session_atomic
    (cfg : Config) (md5 : String → String) (st : ClientState)
    (co : Transport ChallengeData) (lo : Transport LoginData) :
    (∀ e, (login cfg md5 st co lo).result = .error e →
      (login cfg md5 st co lo).state = st) ∧
    (∀ ld, (login cfg md5 st co lo).result = .ok ld →
      lo = .ok ld ∧ ∃ lr, ld.result = some lr ∧
        (login cfg md5 st co lo).state
          = ⟨lr.sessionName, lr.userId, some lr⟩) := by
  cases co with
  | err m => simp [login, getChallenge]
  | ok d =>
    by_cases hs : d.success
    · cases hr : d.result with
      | none => simp [login, getChallenge, hs, hr]
      | some r =>
        cases lo with
        | err m => simp [login, getChallenge, hs, hr]
        | ok ld =>
          cases hld : ld.result with
          | none => simp [login, getChallenge, hs, hr, hld]
          | some lr =>
            constructor
            · intro e he
              simp [login, getChallenge, hs, hr, hld] at he
            · intro ld1 hld1
              simp only [login, getChallenge, hs, hr, hld, if_true] at hld1 ⊢
              simp only [Except.ok.injEq] at hld1
              subst hld1
              exact ⟨rfl, lr, hld, rfl⟩
    · simp [login, getChallenge, hs]

/-- C5 witness: the theorem applied at a concrete transport failure of the
challenge step with a logged-in prior state; the session fields keep their
prior values. -/
theorem login_session_atomic_witness :
    (login cfgW md5W stW (.err "network down") (.err "x")).state = stW :=
  (login_session_atomic cfgW md5W stW (.err "network down") (.err "x")).1
    "network down" rfl

/-- C3: evaluation of the dispatcher at the key "projects", which is outside
the 22-key enumeration: no local error is raised; retrieve transmits a GET
whose id is the placeholder string nullx42, and create transmits a POST whose
elementType is the string "null", both resolving with the remote response.
This contradicts the stated fail-fast behaviour. -/
theorem unknownModule_sends_placeholder_request :
    (retrieve cfgW stW "projects" 42 (Transport.ok "resp")).1.params
      = [("operation", "retrieve"), ("sessionName", "sess"),
         ("id", "nullx42")] ∧
    (retrieve cfgW stW "projects" 42 (Transport.ok "resp")).2 = .ok "resp" ∧
    (create cfgW stW "projects" ⟨[("name", "X")], .undefined, .undefined⟩
        (Transport.ok "resp")).1.params
      = [("operation", "create"), ("sessionName", "sess"),
         ("element", stringifyData ⟨[("name", "X")], .str "19x1", .undefined⟩),
         ("elementType", "null")] ∧
    (create cfgW stW "projects" ⟨[("name", "X")], .undefined, .undefined⟩
        (Transport.ok "resp")).2 = .ok "resp" :=
  ⟨rfl, rfl, rfl, rfl⟩

/-- C6 counterexample: data that does contain an assigned_user_id entry, with
the empty string as its value, is not posted unchanged: the JS || default in
create replaces the falsy value with the current userId, so the posted
element differs from the serialization of the caller data. -/
theorem create_falsy_assigned_user_replaced :
    (create cfgW stW "contacts" ⟨[("lastname", "Doe")], .str "", .undefined⟩
        (Transport.ok "resp")).1.params
      = [("operation", "create"), ("sessionName", "sess"),
         ("element",
           stringifyData ⟨[("lastname", "Doe")], .str "19x1", .undefined⟩),
         ("elementType", "Contacts")] ∧
    stringifyData ⟨[("lastname", "Doe")], .str "19x1", .undefined⟩
      ≠ stringifyData ⟨[("lastname", "Doe")], .str "", .undefined⟩ :=
  ⟨rfl, by decide⟩

/-- C6 (amended): the element posted by create is the caller data with
assigned_user_id defaulted by the JS || idiom: an absent entry (and likewise
a falsy one: null or the empty string) is replaced by the current userId
(null when not logged in); a truthy, i.e. nonempty string, value is posted
unchanged. -/
theorem create_defaults_assigned_user
    {α : Type} (cfg : Config) (st : ClientState) (m : String)
    (d : RecordData) (o : Transport α) :
    (d.assigned_user_id = .undefined ∨ d.assigned_user_id = .null ∨
        d.assigned_user_id = .str "" →
      (create cfg st m d o).1.params
        = [("operation", "create"),
           ("sessionName", (optNull st.sessionId).coerce),
           ("element", stringifyData
             { d with assigned_user_id := optNull st.userId }),
           ("elementType", (optNull (getModuleName m)).coerce)]) ∧
    (∀ s, s ≠ "" → d.assigned_user_id = .str s →
      (create cfg st m d o).1.params
        = [("operation", "create"),
           ("sessionName", (optNull st.sessionId).coerce),
           ("element", stringifyData d),
           ("elementType", (optNull (getModuleName m)).coerce)]) := by
  constructor
  · intro h
    rcases h with h | h | h <;>
      simp [create, mkPost, JsVal.truthy, h, JsVal.coerce]
  · intro s hs h
    have htr : d.assigned_user_id.truthy = true := by
      rw [h]; simp [JsVal.truthy, hs]
    have hd : { d with assigned_user_id := d.assigned_user_id } = d := rfl
    simp [create, mkPost, htr, JsVal.coerce, hd]

/-- C6 witness: the amended theorem applied at concrete data: with the entry
absent the logged-in userId is posted; with the nonempty value 19x9 present
that value is posted unchanged. -/
theorem create_defaults_assigned_user_witness :
    (create cfgW stW "contacts" ⟨[("firstname", "Ann")], .undefined, .undefined⟩
        (Transport.ok "resp")).1.params
      = [("operation", "create"), ("sessionName", "sess"),
         ("element",
           stringifyData ⟨[("firstname", "Ann")], .str "19x1", .undefined⟩),
         ("elementType", "Contacts")] ∧
    (create cfgW stW "contacts" ⟨[("firstname", "Ann")], .str "19x9", .undefined⟩
        (Transport.ok "resp")).1.params
      = [("operation", "create"), ("sessionName", "sess"),
         ("element",
           stringifyData ⟨[("firstname", "Ann")], .str "19x9", .undefined⟩),
         ("elementType", "Contacts")] :=
  ⟨(create_defaults_assigned_user cfgW stW "contacts"
      ⟨[("firstname", "Ann")], .undefined, .undefined⟩ (Transport.ok "resp")).1
      (Or.inl rfl),
   (create_defaults_assigned_user cfgW stW "contacts"
      ⟨[("firstname", "Ann")], .str "19x9", .undefined⟩ (Transport.ok "resp")).2
      "19x9" (by decide) rfl⟩

/-- C7: for a module key resolving to id i and any record number n, retrieve
issues one GET whose parameters are exactly operation=retrieve, the current
sessionName, and id equal to the string i x n; the same composite wire format
appears wherever a record id is sent: update (injected into the element),
delete, retrieveRelated, queryRelated, and both references of deleteRelated
and addRelated. -/
theorem recordRef_wire_format
    {α : Type} (cfg : Config) (st : ClientState) (m m2 : String)
    (i i2 : Nat) (n n2 : Nat) (sid : String) (d : RecordData)
    (lbl : String) (o : Transport α)
    (hm : getModuleId m = some i) (hm2 : getModuleId m2 = some i2)
    (hsid : st.sessionId = some sid) :
    ((retrieve cfg st m n o).1.method = .get ∧
      (retrieve cfg st m n o).1.params
        = [("operation", "retrieve"), ("sessionName", sid),
           ("id", toString i ++ "x" ++ toString n)]) ∧
    ("element",
        stringifyData { d with id := .str (toString i ++ "x" ++ toString n) })
      ∈ (update cfg st m n d o).1.params ∧
    ("id", toString i ++ "x" ++ toString n)
      ∈ (delete cfg st m n o).1.params ∧
    ("id", toString i ++ "x" ++ toString n)
      ∈ (retrieveRelated cfg st m n m2 lbl o).1.params ∧
    ("id", toString i ++ "x" ++ toString n)
      ∈ (queryRelated cfg st m n lbl o).1.params ∧
    (("sourceRecordId", toString i ++ "x" ++ toString n)
        ∈ (deleteRelated cfg st m n m2 n2 o).1.params ∧
      ("relatedRecordId", toString i2 ++ "x" ++ toString n2)
        ∈ (deleteRelated cfg st m n m2 n2 o).1.params) ∧
    (("sourceRecordId", toString i ++ "x" ++ toString n)
        ∈ (addRelated cfg st m n m2 n2 lbl o).1.params ∧
      ("relatedRecordId", toString i2 ++ "x" ++ toString n2)
        ∈ (addRelated cfg st m n m2 n2 lbl o).1.params) := by
  refine ⟨⟨rfl, ?_⟩, ?_, ?_, ?_, ?_, ⟨?_, ?_⟩, ⟨?_, ?_⟩⟩ <;>
    simp [retrieve, update, delete, retrieveRelated, queryRelated,
      deleteRelated, addRelated, mkGet, mkPost, keptParam, JsVal.coerce,
      recordRef, optNull, hm, hm2, hsid]

/-- C7 witness: the theorem applied at the module contacts (id 4) and record
number 42: the GET carries id=4x42, as in the spec example. -/
theorem recordRef_wire_format_witness :
    (retrieve cfgW stW "contacts" 42 (Transport.ok "resp")).1.params
      = [("operation", "retrieve"), ("sessionName", "sess"),
         ("id", "4x42")] :=
  (recordRef_wire_format cfgW stW "contacts" "leads" 4 2 42 7 "sess"
    ⟨[], .undefined, .undefined⟩ "Documents" (Transport.ok "resp")
    rfl rfl rfl).1.2

/-- C8: for a module key resolving to display name nm, queryRelated sends as
its query parameter exactly the literal SELECT * FROM followed by nm,
independent of the record number and the related label (both reappear only
in the id and relatedLabel parameters); no caller-supplied query string is
involved. -/
theorem queryRelated_fixed_query
    {α : Type} (cfg : Config) (st : ClientState) (m : String) (nm : String)
    (n : Nat) (lbl : String) (sid : String) (o : Transport α)
    (hm : getModuleName m = some nm) (hsid : st.sessionId = some sid) :
    (queryRelated cfg st m n lbl o).1.params
      = [("operation", "query_related"), ("sessionName", sid),
         ("query", "SELECT * FROM " ++ nm),
         ("id", recordRef (getModuleId m) n), ("relatedLabel", lbl)] := by
  simp [queryRelated, mkGet, keptParam, JsVal.coerce, optNull, hm, hsid]

/-- C8 witness: the theorem applied at queryRelated contacts 7 Documents: the
query parameter is the literal SELECT * FROM Contacts. -/
theorem queryRelated_fixed_query_witness :
    (queryRelated cfgW stW "contacts" 7 "Documents"
        (Transport.ok "resp")).1.params
      = [("operation", "query_related"), ("sessionName", "sess"),
         ("query", "SELECT * FROM Contacts"), ("id", "4x7"),
         ("relatedLabel", "Documents")] :=
  queryRelated_fixed_query cfgW stW "contacts" "Contacts" 7 "Documents"
    "sess" (Transport.ok "resp") rfl rfl

/-- C9: logout posts operation=logout with the current sessionName, and in
every run, resolving or rejecting, the client state afterwards is exactly the
state before: no session field is cleared or modified. -/
theorem logout_preserves_session
    {α : Type} (cfg : Config) (st : ClientState) (o : Transport α) :
    (logout cfg st o).2.2 = st ∧
    (logout cfg st o).1.method = .post ∧
    (logout cfg st o).1.params
      = [("operation", "logout"),
         ("sessionName", (optNull st.sessionId).coerce)] :=
  ⟨rfl, rfl, rfl⟩

/-- C10 counterexample: before any login, create (a form POST) does not send
sessionName empty or absent: URLSearchParams coerces the null sessionId to
the literal string "null", which is transmitted as the parameter value. -/
theorem preLogin_post_sends_null_sessionName :
    (create cfgW initialState "contacts" ⟨[], .undefined, .undefined⟩
        (Transport.ok "resp")).1.params
      = [("operation", "create"), ("sessionName", "null"),
         ("element", stringifyData ⟨[], .null, .undefined⟩),
         ("elementType", "Contacts")] ∧
    ("null" : String) ≠ "" :=
  ⟨rfl, by decide⟩

/-- C10 (amended): every dispatcher operation invoked before any successful
login raises nothing locally and still sends the request; the GET operations
(query, listTypes, retrieve, describe, relatedTypes, retrieveRelated,
queryRelated) omit the sessionName parameter entirely (the axios serializer
drops null entries), while the form POST operations (create, update, delete,
deleteRelated, addRelated) transmit sessionName as the literal string
"null"; for every operation a transport or remote rejection propagates to
the caller as the failure of the call. -/
theorem preLogin_dispatch_sends_request
    {α : Type} (cfg : Config) (q : String) (m m2 : String) (n n2 : Nat)
    (d : RecordData) (lbl : String) (e : String) (a : α) :
    (query cfg initialState q (Transport.ok a)).1.params
      = [("operation", "query"), ("query", q)] ∧
    (listTypes cfg initialState (Transport.ok a)).1.params
      = [("operation", "listtypes")] ∧
    (retrieve cfg initialState m n (Transport.ok a)).1.params
      = [("operation", "retrieve"),
         ("id", recordRef (getModuleId m) n)] ∧
    (describe cfg initialState m (Transport.ok a)).1.params
      = [("operation", "describe")]
        ++ (match getModuleName m with
            | some nm => [("elementType", nm)]
            | none => []) ∧
    (relatedTypes cfg initialState m (Transport.ok a)).1.params
      = [("operation", "relatedtypes")]
        ++ (match getModuleName m with
            | some nm => [("elementType", nm)]
            | none => []) ∧
    (retrieveRelated cfg initialState m n m2 lbl (Transport.ok a)).1.params
      = [("operation", "retrieve_related"),
         ("id", recordRef (getModuleId m) n), ("relatedLabel", lbl)]
        ++ (match getModuleName m2 with
            | some nm => [("relatedType", nm)]
            | none => []) ∧
    (queryRelated cfg initialState m n lbl (Transport.ok a)).1.params
      = [("operation", "query_related"),
         ("query", "SELECT * FROM " ++ (optNull (getModuleName m)).coerce),
         ("id", recordRef (getModuleId m) n), ("relatedLabel", lbl)] ∧
    ("sessionName", "null")
      ∈ (create cfg initialState m d (Transport.ok a)).1.params ∧
    ("sessionName", "null")
      ∈ (update cfg initialState m n d (Transport.ok a)).1.params ∧
    ("sessionName", "null")
      ∈ (delete cfg initialState m n (Transport.ok a)).1.params ∧
    ("sessionName", "null")
      ∈ (deleteRelated cfg initialState m n m2 n2
          (Transport.ok a)).1.params ∧
    ("sessionName", "null")
      ∈ (addRelated cfg initialState m n m2 n2 lbl
          (Transport.ok a)).1.params ∧
    (query cfg initialState q (Transport.err e : Transport α)).2
      = .error e ∧
    (listTypes cfg initialState (Transport.err e : Transport α)).2
      = .error e ∧
    (retrieve cfg initialState m n (Transport.err e : Transport α)).2
      = .error e ∧
    (describe cfg initialState m (Transport.err e : Transport α)).2
      = .error e ∧
    (relatedTypes cfg initialState m (Transport.err e : Transport α)).2
      = .error e ∧
    (retrieveRelated cfg initialState m n m2 lbl
        (Transport.err e : Transport α)).2 = .error e ∧
    (queryRelated cfg initialState m n lbl
        (Transport.err e : Transport α)).2 = .error e ∧
    (create cfg initialState m d (Transport.err e : Transport α)).2
      = .error e ∧
    (update cfg initialState m n d (Transport.err e : Transport α)).2
      = .error e ∧
    (delete cfg initialState m n (Transport.err e : Transport α)).2
      = .error e ∧
    (deleteRelated cfg initialState m n m2 n2
        (Transport.err e : Transport α)).2 = .error e ∧
    (addRelated cfg initialState m n m2 n2 lbl
        (Transport.err e : Transport α)).2 = .error e := by
  refine ⟨rfl, rfl, rfl, ?_, ?_, ?_, rfl, ?_, ?_, ?_, ?_, ?_,
    rfl, rfl, rfl, rfl, rfl, rfl, rfl, rfl, rfl, rfl, rfl, rfl⟩
  · cases h : getModuleName m <;>
      simp [describe, mkGet, keptParam, optNull, JsVal.coerce, h,
        initialState]
  · cases h : getModuleName m <;>
      simp [relatedTypes, mkGet, keptParam, optNull, JsVal.coerce, h,
        initialState]
  · cases h : getModuleName m2 <;>
      simp [retrieveRelated, mkGet, keptParam, optNull, JsVal.coerce, h,
        initialState]
  · simp [create, mkPost, JsVal.coerce, optNull, initialState]
  · simp [update, mkPost, JsVal.coerce, optNull, initialState]
  · simp [delete, mkPost, JsVal.coerce, optNull, initialState]
  · simp [deleteRelated, mkPost, JsVal.coerce, optNull, initialState]
  · simp [addRelated, mkPost, JsVal.coerce, optNull, initialState]

end VtigerClient
